import Mathlib

/-!
Shallow embedding of the status-monitoring and failover-resolution core of
the Custom-network-topology repository.

Two reference implementations exist in the source:
* the scripted polling monitor `src/monitor.ps1` (probe pass, state/uptime
  pass, failover resolver, snapshot build);
* the embedded host-process scheduler in `src/unnamed/part_001`
  (`ipcMain.handle('monitor:start'/'monitor:stop')`, `runMonitoring`) with
  the renderer-side uptime tracker and `formatDuration` in
  `src/renderer/js/app.js`.

Network I/O is abstracted by oracle functions passed as parameters: a probe
that performs no I/O is one whose result is the same for every oracle.
Timestamps and durations are modelled in milliseconds as `Nat`.
-/

namespace NetMon

/-- A character is treated as whitespace, as in .NET
`String.IsNullOrWhiteSpace` (the characters that occur in practice). -/
def isWsChar (c : Char) : Bool :=
  c = ' ' || c = '\t' || c = '\n' || c = '\r'

/-- .NET `[string]::IsNullOrWhiteSpace` on a possibly-null string:
true for null, the empty string, or a string of only whitespace. -/
def isNullOrWhiteSpace : Option String → Bool
  | none => true
  | some s => s.toList.all isWsChar

/-- PowerShell truthiness of a possibly-null string value
(`$x -and ...`): null and the empty string are falsy. -/
def psTruthyStr : Option String → Bool
  | none => false
  | some s => s ≠ ""

/-- `[int]` coercion of a PowerShell string (the well-formed cases that
occur in configurations; malformed strings are not used by any claim). -/
def psToInt (s : String) : Int :=
  (s.toInt?).getD 0

/-- A raw configuration record, as read from `config.json` by
`monitor.ps1` before normalization (`$n` in the normalization loop,
lines 93-106).  JSON null / missing fields are `none`; the raw `port`
value is kept as its source text so that the null / empty-string
distinction of the normalization condition is visible. -/
structure RawNode where
  id : String
  name : String
  address : Option String
  port : Option String
  primaryParentId : Option String
  secondaryParentId : Option String
  icon : Option String
  iconType : Option String
  x : Option Int
  y : Option Int
deriving Repr, DecidableEq

/-- A normalized node (`[PSCustomObject]` built in `monitor.ps1`
lines 94-105): `port` is `[int]`-coerced or null, empty parent ids are
nulled. -/
structure Node where
  id : String
  name : String
  address : Option String
  port : Option Int
  primaryParentId : Option String
  secondaryParentId : Option String
  icon : Option String
  iconType : Option String
  x : Option Int
  y : Option Int
deriving Repr, DecidableEq

/-- Node normalization, `monitor.ps1` lines 94-105:
`port = if ($null -ne $n.port -and $n.port -ne '') { [int]$n.port } else { $null }`
and the analogous empty-string-to-null coercion of the parent ids. -/
def normalizeNode (n : RawNode) : Node :=
  { id := n.id
    name := n.name
    address := n.address
    port :=
      match n.port with
      | none => none
      | some p => if p = "" then none else some (psToInt p)
    primaryParentId :=
      match n.primaryParentId with
      | none => none
      | some p => if p = "" then none else some p
    secondaryParentId :=
      match n.secondaryParentId with
      | none => none
      | some p => if p = "" then none else some p
    icon := n.icon
    iconType := n.iconType
    x := n.x
    y := n.y }

/-- First-match lookup in an association list (hashtable read). -/
def lookupAssoc {α : Type} : List (String × α) → String → Option α
  | [], _ => none
  | (k', v) :: rest, k => if k' = k then some v else lookupAssoc rest k

/-- Hashtable assignment `$m[$k] = $v`: overwrite in place if the key is
present, append otherwise. -/
def insertAssoc {α : Type} : List (String × α) → String → α → List (String × α)
  | [], k, v => [(k, v)]
  | (k', v') :: rest, k, v =>
      if k' = k then (k, v) :: rest else (k', v') :: insertAssoc rest k v

/-- `$statuses[$id]` read during the processing pass: every current node id
was written by the probe pass, so a missing key (never hit for current
nodes) reads as false, matching PowerShell null coercion to `[bool]`. -/
def statusAt (statuses : List (String × Bool)) (id : String) : Bool :=
  (lookupAssoc statuses id).getD false

/-- `Test-PingFast` (`monitor.ps1` lines 15-28): guard on null/whitespace
address, then one ICMP echo abstracted by the `pingOracle`. -/
def testPingFast (pingOracle : String → Bool) (addr : Option String) : Bool :=
  if isNullOrWhiteSpace addr then false
  else
    match addr with
    | none => false
    | some a => pingOracle a

/-- `Test-PortFast` (`monitor.ps1` lines 30-47): guard on null/whitespace
address and on a falsy port (`-not $Port`: null or 0), then one TCP
connect abstracted by the `tcpOracle`. -/
def testPortFast (tcpOracle : String → Int → Bool) (addr : Option String)
    (port : Option Int) : Bool :=
  if isNullOrWhiteSpace addr then false
  else
    match addr, port with
    | _, none => false
    | none, _ => false
    | some a, some p => if p = 0 then false else tcpOracle a p

/-- One reachability check of the probe pass (`monitor.ps1` lines 112-124):
empty/whitespace address is immediately down; otherwise TCP-connect when a
port is configured, ICMP echo otherwise. -/
def performCheck (tcpOracle : String → Int → Bool) (pingOracle : String → Bool)
    (n : Node) : Bool :=
  if isNullOrWhiteSpace n.address then false
  else
    match n.port with
    | some _ => testPortFast tcpOracle n.address n.port
    | none => testPingFast pingOracle n.address

/-- The probe mode selected for a normalized node
(`if ($entry.port -ne $null)` in `monitor.ps1` line 118). -/
inductive ProbeMode where
  | tcp
  | icmp
deriving Repr, DecidableEq

/-- Probe mode selection on the normalized `port` field. -/
def probeModeOf (n : Node) : ProbeMode :=
  match n.port with
  | some _ => ProbeMode.tcp
  | none => ProbeMode.icmp

/-- The statuses hashtable built by the probe pass over all current nodes
(`monitor.ps1` lines 109-124), fully populated before the processing pass
begins. -/
def computeStatuses (tcpOracle : String → Int → Bool) (pingOracle : String → Bool)
    (nodes : List Node) : List (String × Bool) :=
  nodes.foldl (fun m n => insertAssoc m n.id (performCheck tcpOracle pingOracle n)) []

/-- Per-id liveness state (`$stateStore[$id]` in `monitor.ps1`; the
renderer keeps the same shape as `{status, since}` in `uptimeTrackers`). -/
structure TrackerState where
  currentStatus : Bool
  sinceTimestamp : Nat
deriving Repr, DecidableEq

/-- One State Tracker update (`monitor.ps1` lines 133-140 and the
`uptimeTrackers` update in `app.js`): create on first observation, reset
both fields on a status flip, otherwise leave the stored state untouched. -/
def updateTracker (prev : Option TrackerState) (observed : Bool) (now : Nat) :
    TrackerState :=
  match prev with
  | none => { currentStatus := observed, sinceTimestamp := now }
  | some st =>
      if st.currentStatus ≠ observed then
        { currentStatus := observed, sinceTimestamp := now }
      else st

/-- A whole observation sequence for one id, applied in order. -/
def runTracker (obs : List (Bool × Nat)) : Option TrackerState :=
  obs.foldl (fun acc p => some (updateTracker acc p.1 p.2)) none

/-- `formatDuration` from `src/renderer/js/app.js` (lines 1663-1672),
on a non-negative millisecond duration. -/
def formatDuration (ms : Nat) : String :=
  let seconds := ms / 1000
  if seconds < 60 then toString seconds ++ "s"
  else
    let minutes := seconds / 60
    if minutes < 60 then
      toString minutes ++ "m " ++ toString (seconds % 60) ++ "s"
    else
      let hours := minutes / 60
      if hours < 24 then
        toString hours ++ "h " ++ toString (minutes % 60) ++ "m"
      else
        let days := hours / 24
        toString days ++ "d " ++ toString (hours % 24) ++ "h"

/-- `TimeSpan.Days` of a millisecond span. -/
def tsDays (ms : Nat) : Nat := ms / 86400000

/-- `TimeSpan.Hours` component (0-23) of a millisecond span. -/
def tsHours (ms : Nat) : Nat := ms / 3600000 % 24

/-- `TimeSpan.Minutes` component (0-59) of a millisecond span. -/
def tsMinutes (ms : Nat) : Nat := ms / 60000 % 60

/-- `TimeSpan.Seconds` component (0-59) of a millisecond span. -/
def tsSeconds (ms : Nat) : Nat := ms / 1000 % 60

/-- `Get-DurationString` from `monitor.ps1` (lines 49-60), on a
non-negative `TimeSpan` given in milliseconds.  Note the day branch
formats three components: `"{0}d {1}h {2}m"`. -/
def getDurationString (ms : Nat) : String :=
  if 86400000 ≤ ms then
    toString (tsDays ms) ++ "d " ++ toString (tsHours ms) ++ "h " ++
      toString (tsMinutes ms) ++ "m"
  else if 3600000 ≤ ms then
    toString (tsHours ms) ++ "h " ++ toString (tsMinutes ms) ++ "m"
  else if 60000 ≤ ms then
    toString (tsMinutes ms) ++ "m " ++ toString (tsSeconds ms) ++ "s"
  else
    toString (tsSeconds ms) ++ "s"

/-- The duration bucketing policy as the spec words it: at most two units,
largest first, each component the integer floor of the remaining span
(`< 60s` → "{s}s", `< 60m` → "{m}m {s}s", `< 24h` → "{h}h {m}m",
`>= 24h` → "{d}d {h}h").  Written from the spec's words, to be compared
with the source functions. -/
def formatDurationSpec (ms : Nat) : String :=
  if ms < 60000 then toString (ms / 1000) ++ "s"
  else if ms < 3600000 then
    toString (ms / 60000) ++ "m " ++ toString (ms % 60000 / 1000) ++ "s"
  else if ms < 86400000 then
    toString (ms / 3600000) ++ "h " ++ toString (ms % 3600000 / 60000) ++ "m"
  else
    toString (ms / 86400000) ++ "d " ++ toString (ms % 86400000 / 3600000) ++ "h"

/-- The failover resolver of the processing pass (`monitor.ps1`
lines 145-157): primary if set and up, else secondary if set and up, else
fall back to the primary id (possibly null).  A parent id missing from the
statuses table leaves its `Up` flag false. -/
def resolveActiveParent (n : Node) (statuses : List (String × Bool)) :
    Option String :=
  let primaryUp :=
    match n.primaryParentId with
    | some pid => if pid ≠ "" then statusAt statuses pid else false
    | none => false
  let secondaryUp :=
    match n.secondaryParentId with
    | some sid => if sid ≠ "" then statusAt statuses sid else false
    | none => false
  if primaryUp then n.primaryParentId
  else if secondaryUp then n.secondaryParentId
  else n.primaryParentId

/-- The resolver policy as the spec words it (rules 1-3 of §4.3 with the
missing-key-is-down convention).  Written from the spec's words, to be
compared with `resolveActiveParent`. -/
def resolveActiveParentSpec (n : Node) (statuses : List (String × Bool)) :
    Option String :=
  match n.primaryParentId with
  | some pid =>
      if statusAt statuses pid then some pid
      else
        match n.secondaryParentId with
        | some sid => if statusAt statuses sid then some sid else some pid
        | none => some pid
  | none =>
      match n.secondaryParentId with
      | some sid => if statusAt statuses sid then some sid else none
      | none => none

/-- One published snapshot record (`[PSCustomObject]` built at
`monitor.ps1` lines 159-173; the spec's ResolvedHost). -/
structure ResolvedHost where
  id : String
  name : String
  address : Option String
  port : Option Int
  status : Bool
  icon : Option String
  iconType : Option String
  primaryParentId : Option String
  secondaryParentId : Option String
  activeParentId : Option String
  x : Option Int
  y : Option Int
  uptime : String
deriving Repr, DecidableEq

/-- The processing pass of one tick (`monitor.ps1` lines 127-174): for
each current node in order, update the state store, format the uptime
from the (possibly fresh) transition time, resolve the active parent
against the full statuses table, and append the snapshot record. -/
def tickLoop (statuses : List (String × Bool)) (now : Nat) :
    List (String × TrackerState) → List Node →
    List (String × TrackerState) × List ResolvedHost
  | store, [] => (store, [])
  | store, n :: rest =>
      let isUp := statusAt statuses n.id
      let st := updateTracker (lookupAssoc store n.id) isUp now
      let store' := insertAssoc store n.id st
      let r : ResolvedHost :=
        { id := n.id
          name := n.name
          address := n.address
          port := n.port
          status := isUp
          icon := n.icon
          iconType := n.iconType
          primaryParentId := n.primaryParentId
          secondaryParentId := n.secondaryParentId
          activeParentId := resolveActiveParent n statuses
          x := n.x
          y := n.y
          uptime := getDurationString (now - st.sinceTimestamp) }
      let res := tickLoop statuses now store' rest
      (res.1, r :: res.2)

/-- One whole tick of the scripted monitor (`monitor.ps1` lines 108-183):
the probe pass fully populates the statuses table for all current nodes,
then the processing pass builds the snapshot.  Returns the updated state
store and the published records. -/
def tick (tcpOracle : String → Int → Bool) (pingOracle : String → Bool)
    (nodes : List Node) (store : List (String × TrackerState)) (now : Nat) :
    List (String × TrackerState) × List ResolvedHost :=
  tickLoop (computeStatuses tcpOracle pingOracle nodes) now store nodes

/-- JavaScript truthiness of the `port` field (`if (node.port)` in
`runMonitoring`, `src/unnamed/part_001`): null/undefined and 0 are falsy. -/
def jsTruthyPort : Option Int → Bool
  | none => false
  | some p => p ≠ 0

/-- The probe of the embedded scheduler (`runMonitoring` in
`src/unnamed/part_001`, lines 522-563): TCP connect when `node.port` is
truthy, otherwise a ping subprocess — with no empty-address guard; the
oracles receive the possibly-null address verbatim. -/
def probeNodeEmbedded (tcpOracle : Option String → Int → Bool)
    (pingOracle : Option String → Bool) (n : Node) : Bool :=
  match n.port with
  | some p => if p ≠ 0 then tcpOracle n.address p else pingOracle n.address
  | none => pingOracle n.address

/-- The configuration object handed to `monitor:start`
(`{nodes, interval}` from the renderer). -/
structure MonConfig where
  nodes : Option (List Node)
  interval : Option Nat
deriving Repr, DecidableEq

/-- Scheduler state of the embedded host process: the set of armed
interval timers of the environment, a fresh-id counter, and the two
module globals `monitoringInterval` and `monitoringConfig` of
`src/unnamed/part_001`. -/
structure SchedState where
  armedTimers : List Nat
  nextTimerId : Nat
  monitoringInterval : Option Nat
  monitoringConfig : Option MonConfig
deriving Repr, DecidableEq

/-- Result of an IPC handler invocation: `{success: true}` or an
exception propagated to the caller. -/
inductive CallResult where
  | success
  | thrown
deriving Repr, DecidableEq

/-- One tick of the embedded scheduler (`runMonitoring`): no-op when the
config or its node list is absent, otherwise probe every node and publish
each node's fields with its fresh status.  `none` means nothing was
published. -/
def runMonitoringEmbedded (tcpOracle : Option String → Int → Bool)
    (pingOracle : Option String → Bool) (cfg : Option MonConfig) :
    Option (List (Node × Bool)) :=
  match cfg with
  | none => none
  | some c =>
      match c.nodes with
      | none => none
      | some nodes =>
          some (nodes.map (fun n => (n, probeNodeEmbedded tcpOracle pingOracle n)))

/-- `ipcMain.handle('monitor:start')` (`src/unnamed/part_001`
lines 511-576): store the config, clear any prior interval timer, run one
immediate tick, then arm a fresh interval timer and return success.  A
null config throws at `config.interval` after the old timer was cleared
and before a new one is armed. -/
def monitorStart (cfg : Option MonConfig) (s : SchedState) :
    SchedState × CallResult :=
  let s1 := { s with monitoringConfig := cfg }
  let s2 :=
    match s1.monitoringInterval with
    | some tid => { s1 with armedTimers := s1.armedTimers.erase tid }
    | none => s1
  match cfg with
  | none => (s2, CallResult.thrown)
  | some _ =>
      ({ s2 with
          armedTimers := s2.nextTimerId :: s2.armedTimers
          monitoringInterval := some s2.nextTimerId
          nextTimerId := s2.nextTimerId + 1 },
        CallResult.success)

/-- `ipcMain.handle('monitor:stop')` (`src/unnamed/part_001`
lines 578-584): clear the interval timer if one is armed, null the
handle, return success either way. -/
def monitorStop (s : SchedState) : SchedState × CallResult :=
  match s.monitoringInterval with
  | some tid =>
      ({ s with
          armedTimers := s.armedTimers.erase tid
          monitoringInterval := none },
        CallResult.success)
  | none => (s, CallResult.success)

/-- Well-formed scheduler state: the armed timers of the environment are
exactly the one registered in `monitoringInterval` (if any), and every
registered id is below the fresh-id counter. -/
def wfSched (s : SchedState) : Prop :=
  (s.armedTimers = (s.monitoringInterval.map (fun tid => [tid])).getD []) ∧
  (∀ tid, s.monitoringInterval = some tid → tid < s.nextTimerId)

/-- Example host A of the spec's end-to-end scenario: no parents. -/
def exA : Node :=
  { id := "A"
    name := "A"
    address := some "10.0.0.1"
    port := none
    primaryParentId := none
    secondaryParentId := none
    icon := none
    iconType := none
    x := none
    y := none }

/-- Example host B: primary parent A. -/
def exB : Node :=
  { exA with id := "B", address := some "10.0.0.2", primaryParentId := some "A" }

/-- Example host C: primary parent A, secondary parent B. -/
def exC : Node :=
  { exB with id := "C", address := some "10.0.0.3", secondaryParentId := some "B" }

/-- Example TCP oracle (never consulted for the ICMP-mode example hosts). -/
def exTcp : String → Int → Bool := fun _ _ => false

/-- Example ping oracle: A is down, everything else answers. -/
def exPing : String → Bool := fun a => a ≠ "10.0.0.1"

/-- Example state store holding a stale entry for a host "Z" that is not
in any current host list. -/
def staleStore : List (String × TrackerState) :=
  [("Z", { currentStatus := true, sinceTimestamp := 0 })]

/-- Example node of the embedded scheduler with an empty address and a
configured port. -/
def exEmptyAddr : Node :=
  { exA with id := "E", name := "E", address := some "", port := some 22 }

/-- Example `monitor:start` configuration whose node list is missing. -/
def badCfg : MonConfig := { nodes := none, interval := none }

/-- Example idle scheduler state. -/
def idleSched : SchedState :=
  { armedTimers := [], nextTimerId := 0, monitoringInterval := none, monitoringConfig := none }

/-- Example running scheduler state with timer 5 armed. -/
def runningSched : SchedState :=
  { armedTimers := [5], nextTimerId := 6, monitoringInterval := some 5, monitoringConfig := none }

/-- Example raw configuration record whose `port` key is present but
holds the empty string. -/
def rawEmptyPort : RawNode :=
  { id := "R"
    name := "R"
    address := some "10.0.0.9"
    port := some ""
    primaryParentId := none
    secondaryParentId := none
    icon := none
    iconType := none
    x := none
    y := none }

end NetMon

namespace NetMon

/-- Normalization never leaves an empty-string primary parent id. -/
theorem normalize_primary_ne_empty (raw : RawNode) :
    (normalizeNode raw).primaryParentId ≠ some "" := by
  simp only [normalizeNode]
  cases raw.primaryParentId with
  | none => simp
  | some p => by_cases h : p = "" <;> simp [h]

/-- Normalization never leaves an empty-string secondary parent id. -/
theorem normalize_secondary_ne_empty (raw : RawNode) :
    (normalizeNode raw).secondaryParentId ≠ some "" := by
  simp only [normalizeNode]
  cases raw.secondaryParentId with
  | none => simp
  | some p => by_cases h : p = "" <;> simp [h]

/-- On nodes whose parent ids are never the empty string (as normalization
guarantees), the source resolver agrees with the spec's policy. -/
theorem resolve_eq_spec_of_wf (n : Node) (statuses : List (String × Bool))
    (hp : n.primaryParentId ≠ some "") (hs : n.secondaryParentId ≠ some "") :
    resolveActiveParent n statuses = resolveActiveParentSpec n statuses := by
  unfold resolveActiveParent resolveActiveParentSpec
  cases hP : n.primaryParentId with
  | none =>
      cases hS : n.secondaryParentId with
      | none => simp
      | some sid =>
          have hne : sid ≠ "" := fun h => hs (by rw [hS, h])
          by_cases hup : statusAt statuses sid = true <;> simp [hne, hup]
  | some pid =>
      have hpe : pid ≠ "" := fun h => hp (by rw [hP, h])
      cases hS : n.secondaryParentId with
      | none =>
          by_cases hup : statusAt statuses pid = true <;> simp [hpe, hup]
      | some sid =>
          have hne : sid ≠ "" := fun h => hs (by rw [hS, h])
          by_cases hup : statusAt statuses pid = true <;>
            by_cases hsu : statusAt statuses sid = true <;>
              simp [hpe, hne, hup, hsu]

end NetMon

namespace NetMon

/-- C1: for every host (as normalized by configuration loading, which is
how every host reaches the resolver) and every statuses map, the failover
resolver returns the primary parent when it is set and up, else the
secondary parent when it is set and up, else the primary parent id
(possibly null); a parent id absent from the statuses map counts as
status false, never as an error. -/
theorem resolveActiveParent_matches_policy (raw : RawNode)
    (statuses : List (String × Bool)) :
    resolveActiveParent (normalizeNode raw) statuses
      = resolveActiveParentSpec (normalizeNode raw) statuses :=
  resolve_eq_spec_of_wf (normalizeNode raw) statuses
    (normalize_primary_ne_empty raw) (normalize_secondary_ne_empty raw)

/-- The renderer's `formatDuration` implements exactly the spec's
bucketing policy. -/
theorem formatDuration_eq_spec (ms : Nat) :
    formatDuration ms = formatDurationSpec ms := by
  simp only [formatDuration, formatDurationSpec]
  by_cases h1 : ms / 1000 < 60
  · rw [if_pos h1, if_pos (by omega : ms < 60000)]
  · rw [if_neg h1, if_neg (by omega : ¬ ms < 60000)]
    by_cases h2 : ms / 1000 / 60 < 60
    · rw [if_pos h2, if_pos (by omega : ms < 3600000)]
      have e1 : ms / 1000 / 60 = ms / 60000 := by omega
      have e2 : ms / 1000 % 60 = ms % 60000 / 1000 := by omega
      rw [e1, e2]
    · rw [if_neg h2, if_neg (by omega : ¬ ms < 3600000)]
      by_cases h3 : ms / 1000 / 60 / 60 < 24
      · rw [if_pos h3, if_pos (by omega : ms < 86400000)]
        have e1 : ms / 1000 / 60 / 60 = ms / 3600000 := by omega
        have e2 : ms / 1000 / 60 % 60 = ms % 3600000 / 60000 := by omega
        rw [e1, e2]
      · rw [if_neg h3, if_neg (by omega : ¬ ms < 86400000)]
        have e1 : ms / 1000 / 60 / 60 / 24 = ms / 86400000 := by omega
        have e2 : ms / 1000 / 60 / 60 % 24 = ms % 86400000 / 3600000 := by omega
        rw [e1, e2]

/-- Below one day, the scripted monitor's `Get-DurationString` agrees with
the renderer's `formatDuration`. -/
theorem getDurationString_eq_below_day (ms : Nat) (h : ms < 86400000) :
    getDurationString ms = formatDuration ms := by
  simp only [getDurationString, formatDuration, tsDays, tsHours, tsMinutes, tsSeconds]
  rw [if_neg (by omega : ¬ 86400000 ≤ ms)]
  by_cases h2 : 3600000 ≤ ms
  · rw [if_pos h2, if_neg (by omega : ¬ ms / 1000 < 60),
      if_neg (by omega : ¬ ms / 1000 / 60 < 60),
      if_pos (by omega : ms / 1000 / 60 / 60 < 24)]
    have e1 : ms / 3600000 % 24 = ms / 1000 / 60 / 60 := by omega
    have e2 : ms / 60000 % 60 = ms / 1000 / 60 % 60 := by omega
    rw [e1, e2]
  · rw [if_neg h2]
    by_cases h3 : 60000 ≤ ms
    · rw [if_pos h3, if_neg (by omega : ¬ ms / 1000 < 60),
        if_pos (by omega : ms / 1000 / 60 < 60)]
      have e1 : ms / 60000 % 60 = ms / 1000 / 60 := by omega
      have e2 : ms / 1000 % 60 = ms / 1000 % 60 := rfl
      rw [e1]
    · rw [if_neg h3, if_pos (by omega : ms / 1000 < 60)]
      have e1 : ms / 1000 % 60 = ms / 1000 := by omega
      rw [e1]

end NetMon

namespace NetMon

/-- C2 counterexample: at 90000000 ms (one day, one hour) the scripted
monitor's `Get-DurationString` shows three units, "1d 1h 0m", not the
claimed two-unit "1d 1h". -/
theorem getDurationString_day_three_units :
    getDurationString 90000000 = "1d 1h 0m" ∧ getDurationString 90000000 ≠ "1d 1h" := by
  constructor
  · rfl
  · decide

/-- C2 (amended): the renderer's `formatDuration` obeys the claimed
bucketing exactly, including the four examples; the scripted monitor's
`Get-DurationString` agrees with it below 24 hours, but at or above
24 hours it appends a third minutes component (90000000 ms renders as
"1d 1h 0m"). -/
theorem duration_formatting_buckets :
    (∀ ms : Nat, formatDuration ms = formatDurationSpec ms) ∧
    formatDuration 59000 = "59s" ∧
    formatDuration 60000 = "1m 0s" ∧
    formatDuration 3661000 = "1h 1m" ∧
    formatDuration 90000000 = "1d 1h" ∧
    (∀ ms : Nat, ms < 86400000 → getDurationString ms = formatDuration ms) ∧
    getDurationString 90000000 = "1d 1h 0m" :=
  ⟨formatDuration_eq_spec, rfl, rfl, rfl, rfl,
    fun ms h => getDurationString_eq_below_day ms h, rfl⟩

/-- C2 witness: the sub-day agreement applied at a concrete duration. -/
theorem duration_formatting_buckets_witness :
    getDurationString 3661000 = formatDuration 3661000 :=
  duration_formatting_buckets.2.2.2.2.2.1 3661000 (by decide)

/-- C3: a first observation creates the state from that observation; a
flipped observation resets both fields; an unchanged observation leaves
the stored state (in particular `sinceTimestamp`) untouched; hence the
transition timestamp moves only when the observed status flips.  The
spec's observation sequence [true,true,false,false,true] at 0/10/20/30/40
seconds ends in state (true, since 40 s), read as "5s" at 45 s. -/
theorem stateTracker_update_spec :
    (∀ (s : Bool) (t : Nat),
        updateTracker none s t = { currentStatus := s, sinceTimestamp := t }) ∧
    (∀ (st : TrackerState) (s : Bool) (t : Nat), st.currentStatus ≠ s →
        updateTracker (some st) s t = { currentStatus := s, sinceTimestamp := t }) ∧
    (∀ (st : TrackerState) (s : Bool) (t : Nat), st.currentStatus = s →
        updateTracker (some st) s t = st) ∧
    (∀ (st : TrackerState) (s : Bool) (t : Nat),
        (updateTracker (some st) s t).sinceTimestamp ≠ st.sinceTimestamp →
        st.currentStatus ≠ s) ∧
    runTracker [(true, 0), (true, 10000), (false, 20000), (false, 30000), (true, 40000)]
      = some { currentStatus := true, sinceTimestamp := 40000 } ∧
    getDurationString (45000 - 40000) = "5s" := by
  refine ⟨fun s t => rfl, fun st s t h => by simp [updateTracker, h],
    fun st s t h => by simp [updateTracker, h], fun st s t h hc => ?_, by decide, rfl⟩
  exact h (by simp [updateTracker, hc])

/-- C3 witness: the three guarded cases at concrete states. -/
theorem stateTracker_update_spec_witness :
    updateTracker (some { currentStatus := true, sinceTimestamp := 5 }) false 9
      = { currentStatus := false, sinceTimestamp := 9 } ∧
    updateTracker (some { currentStatus := true, sinceTimestamp := 5 }) true 9
      = { currentStatus := true, sinceTimestamp := 5 } ∧
    ({ currentStatus := true, sinceTimestamp := 5 } : TrackerState).currentStatus ≠ false :=
  ⟨stateTracker_update_spec.2.1 { currentStatus := true, sinceTimestamp := 5 } false 9
      (by decide),
    stateTracker_update_spec.2.2.1 { currentStatus := true, sinceTimestamp := 5 } true 9 rfl,
    stateTracker_update_spec.2.2.2.1 { currentStatus := true, sinceTimestamp := 5 } false 9
      (by decide)⟩

end NetMon

namespace NetMon

/-- The processing pass resolves every node against the one statuses table
it is given, independent of the threaded state store. -/
theorem tickLoop_map_active (statuses : List (String × Bool)) (now : Nat)
    (nodes : List Node) :
    ∀ store : List (String × TrackerState),
      ((tickLoop statuses now store nodes).2).map (fun r => r.activeParentId)
        = nodes.map (fun n => resolveActiveParent n statuses) := by
  induction nodes with
  | nil => intro store; rfl
  | cons n rest ih =>
      intro store
      simp only [tickLoop, List.map_cons]
      exact congrArg (List.cons _) (ih _)

/-- The processing pass emits records whose ids are those of the current
node list, in order, independent of the threaded state store. -/
theorem tickLoop_map_id (statuses : List (String × Bool)) (now : Nat)
    (nodes : List Node) :
    ∀ store : List (String × TrackerState),
      ((tickLoop statuses now store nodes).2).map (fun r => r.id)
        = nodes.map (fun n => n.id) := by
  induction nodes with
  | nil => intro store; rfl
  | cons n rest ih =>
      intro store
      simp only [tickLoop, List.map_cons]
      exact congrArg (List.cons _) (ih _)

/-- The processing pass pairs each current node, in order, with a record
that copies its configuration fields and carries the freshly computed
status and resolved parent. -/
theorem tickLoop_forall₂ (statuses : List (String × Bool)) (now : Nat)
    (nodes : List Node) :
    ∀ store : List (String × TrackerState),
      List.Forall₂
        (fun (n : Node) (r : ResolvedHost) =>
          r.id = n.id ∧ r.name = n.name ∧ r.address = n.address ∧ r.port = n.port ∧
          r.primaryParentId = n.primaryParentId ∧
          r.secondaryParentId = n.secondaryParentId ∧
          r.icon = n.icon ∧ r.iconType = n.iconType ∧ r.x = n.x ∧ r.y = n.y ∧
          r.status = statusAt statuses n.id ∧
          r.activeParentId = resolveActiveParent n statuses)
        nodes ((tickLoop statuses now store nodes).2) := by
  induction nodes with
  | nil => intro store; exact List.Forall₂.nil
  | cons n rest ih =>
      intro store
      simp only [tickLoop]
      exact List.Forall₂.cons
        ⟨rfl, rfl, rfl, rfl, rfl, rfl, rfl, rfl, rfl, rfl, rfl, rfl⟩ (ih _)

/-- C4: every published record's active parent is resolved against the
statuses table built by the completed probe pass over all of this tick's
hosts, so each resolution sees every other host's same-tick status; on the
spec's three-host scenario (A down with no parent, B up with primary A,
C up with primary A and secondary B) one tick publishes active parents
null, A (fallback) and B. -/
theorem tick_resolves_against_full_statuses :
    (∀ (tcpOracle : String → Int → Bool) (pingOracle : String → Bool)
        (nodes : List Node) (store : List (String × TrackerState)) (now : Nat),
        ((tick tcpOracle pingOracle nodes store now).2).map (fun r => r.activeParentId)
          = nodes.map (fun n =>
              resolveActiveParent n (computeStatuses tcpOracle pingOracle nodes))) ∧
    ((tick exTcp exPing [exA, exB, exC] [] 0).2).map (fun r => r.activeParentId)
      = [none, some "A", some "B"] :=
  ⟨fun tcpOracle pingOracle nodes store now =>
      tickLoop_map_active (computeStatuses tcpOracle pingOracle nodes) now nodes store,
    by decide⟩

/-- C8: a published snapshot carries exactly the ids of the current host
list — a host absent from the list never appears, even when the internal
state store still holds its stale entry (shown concretely: a stale entry
for "Z" survives the tick internally but "Z" is not published). -/
theorem snapshot_only_current_hosts :
    (∀ (tcpOracle : String → Int → Bool) (pingOracle : String → Bool)
        (nodes : List Node) (store : List (String × TrackerState)) (now : Nat),
        ((tick tcpOracle pingOracle nodes store now).2).map (fun r => r.id)
          = nodes.map (fun n => n.id)) ∧
    ((tick exTcp exPing [exA] staleStore 0).2).map (fun r => r.id) = ["A"] ∧
    lookupAssoc (tick exTcp exPing [exA] staleStore 0).1 "Z"
      = some { currentStatus := true, sinceTimestamp := 0 } :=
  ⟨fun tcpOracle pingOracle nodes store now =>
      tickLoop_map_id (computeStatuses tcpOracle pingOracle nodes) now nodes store,
    by decide, by decide⟩

/-- C10: one tick pairs each current host, in list order, with exactly one
published record whose id, name, address, port, parent ids, icon, icon
type and coordinates are copied unchanged from that host, while status and
the active parent are computed fresh from this tick's probe results. -/
theorem tick_copies_config_fields :
    ∀ (tcpOracle : String → Int → Bool) (pingOracle : String → Bool)
      (nodes : List Node) (store : List (String × TrackerState)) (now : Nat),
      List.Forall₂
        (fun (n : Node) (r : ResolvedHost) =>
          r.id = n.id ∧ r.name = n.name ∧ r.address = n.address ∧ r.port = n.port ∧
          r.primaryParentId = n.primaryParentId ∧
          r.secondaryParentId = n.secondaryParentId ∧
          r.icon = n.icon ∧ r.iconType = n.iconType ∧ r.x = n.x ∧ r.y = n.y ∧
          r.status = statusAt (computeStatuses tcpOracle pingOracle nodes) n.id ∧
          r.activeParentId
            = resolveActiveParent n (computeStatuses tcpOracle pingOracle nodes))
        nodes ((tick tcpOracle pingOracle nodes store now).2) :=
  fun tcpOracle pingOracle nodes store now =>
    tickLoop_forall₂ (computeStatuses tcpOracle pingOracle nodes) now nodes store

end NetMon

namespace NetMon

/-- C5 counterexample: the embedded scheduler's probe has no empty-address
guard — on a host with an empty address and a configured port it consults
the TCP oracle and returns whatever the connection attempt yields, here
true, not the claimed immediate false. -/
theorem embedded_probe_empty_address_does_io :
    probeNodeEmbedded (fun _ _ => true) (fun _ => true) exEmptyAddr = true ∧
    probeNodeEmbedded (fun _ _ => false) (fun _ => true) exEmptyAddr = false :=
  ⟨rfl, rfl⟩

/-- C5 (amended): in the scripted monitor a host with a null, empty or
whitespace address yields reachable = false under every probe oracle (so
no network call can influence the outcome), whatever its port; the
embedded scheduler performs no such guard — its probe result for an
empty-address host depends on the network oracle. -/
theorem probe_empty_address_no_io :
    (∀ (tcpOracle : String → Int → Bool) (pingOracle : String → Bool) (n : Node),
        isNullOrWhiteSpace n.address = true →
        performCheck tcpOracle pingOracle n = false) ∧
    probeNodeEmbedded (fun _ _ => true) (fun _ => false) exEmptyAddr
      ≠ probeNodeEmbedded (fun _ _ => false) (fun _ => false) exEmptyAddr := by
  constructor
  · intro tcpOracle pingOracle n h
    simp [performCheck, h]
  · decide

/-- C5 witness: the guard applied to the empty-address host under an
always-up network. -/
theorem probe_empty_address_no_io_witness :
    performCheck (fun _ _ => true) (fun _ => true) exEmptyAddr = false :=
  probe_empty_address_no_io.1 (fun _ _ => true) (fun _ => true) exEmptyAddr (by decide)

/-- C6 counterexample: `monitor:start` with a config whose node list is
missing is not rejected — it returns success and arms interval timer 0. -/
theorem start_missing_nodes_not_rejected :
    (monitorStart (some badCfg) idleSched).2 = CallResult.success ∧
    (monitorStart (some badCfg) idleSched).1.monitoringInterval = some 0 ∧
    (monitorStart (some badCfg) idleSched).1.armedTimers = [0] :=
  ⟨rfl, rfl, rfl⟩

/-- C6 (amended): `monitor:start` with a malformed or missing host list is
not rejected: it stores the config, returns success and arms a fresh
interval timer; the protection lives in the tick itself, which probes and
publishes nothing when the config or its node list is absent.  Only a null
config argument makes the handler throw (at the `config.interval` access),
and then no new timer is armed. -/
theorem start_missing_nodes_behavior :
    (∀ (s : SchedState) (c : MonConfig), c.nodes = none →
        (monitorStart (some c) s).2 = CallResult.success ∧
        (monitorStart (some c) s).1.monitoringInterval = some s.nextTimerId ∧
        s.nextTimerId ∈ (monitorStart (some c) s).1.armedTimers ∧
        (∀ (tcpOracle : Option String → Int → Bool)
            (pingOracle : Option String → Bool),
          runMonitoringEmbedded tcpOracle pingOracle (some c) = none)) ∧
    (∀ s : SchedState,
        (monitorStart none s).2 = CallResult.thrown ∧
        (monitorStart none s).1.nextTimerId = s.nextTimerId ∧
        (monitorStart none s).1.monitoringInterval = s.monitoringInterval) := by
  constructor
  · intro s c hc
    refine ⟨?_, ?_, ?_, ?_⟩
    · cases h : s.monitoringInterval <;> simp [monitorStart, h]
    · cases h : s.monitoringInterval <;> simp [monitorStart, h]
    · cases h : s.monitoringInterval <;> simp [monitorStart, h]
    · intro tcpOracle pingOracle
      simp [runMonitoringEmbedded, hc]
  · intro s
    refine ⟨?_, ?_, ?_⟩ <;> cases h : s.monitoringInterval <;> simp [monitorStart, h]

/-- C6 witness: the amended behavior at the concrete bad configuration. -/
theorem start_missing_nodes_behavior_witness :
    (monitorStart (some badCfg) runningSched).2 = CallResult.success ∧
    (monitorStart (some badCfg) runningSched).1.monitoringInterval = some 6 ∧
    (6 : Nat) ∈ (monitorStart (some badCfg) runningSched).1.armedTimers ∧
    runMonitoringEmbedded (fun _ _ => true) (fun _ => true) (some badCfg) = none :=
  ⟨(start_missing_nodes_behavior.1 runningSched badCfg rfl).1,
    (start_missing_nodes_behavior.1 runningSched badCfg rfl).2.1,
    (start_missing_nodes_behavior.1 runningSched badCfg rfl).2.2.1,
    (start_missing_nodes_behavior.1 runningSched badCfg rfl).2.2.2
      (fun _ _ => true) (fun _ => true)⟩

end NetMon

namespace NetMon

/-- `monitor:start` registers the fresh timer id. -/
theorem monitorStart_mi (s : SchedState) (c : MonConfig) :
    (monitorStart (some c) s).1.monitoringInterval = some s.nextTimerId := by
  cases hmi : s.monitoringInterval <;> simp [monitorStart, hmi]

/-- `monitor:start` advances the fresh-id counter. -/
theorem monitorStart_next (s : SchedState) (c : MonConfig) :
    (monitorStart (some c) s).1.nextTimerId = s.nextTimerId + 1 := by
  cases hmi : s.monitoringInterval <;> simp [monitorStart, hmi]

/-- From a well-formed state, `monitor:start` leaves exactly the fresh
timer armed: the prior loop's timer was cleared before the new one was
installed. -/
theorem monitorStart_armed (s : SchedState) (c : MonConfig) (h : wfSched s) :
    (monitorStart (some c) s).1.armedTimers = [s.nextTimerId] := by
  obtain ⟨h1, h2⟩ := h
  cases hmi : s.monitoringInterval with
  | none =>
      rw [hmi] at h1
      simp at h1
      simp [monitorStart, hmi, h1]
  | some tid =>
      rw [hmi] at h1
      simp at h1
      simp [monitorStart, hmi, h1]

/-- C7: `start` while Running first cancels the prior timer, so from any
well-formed state the restarted scheduler has exactly one armed timer (the
fresh one) and the prior loop's timer is no longer armed; `stop` returns
success, disarms everything, and a second `stop` is a no-op that again
returns success and leaves the loop Idle. -/
theorem start_stop_idempotent :
    (∀ (s : SchedState) (c : MonConfig), wfSched s →
        wfSched (monitorStart (some c) s).1 ∧
        (monitorStart (some c) s).1.armedTimers = [s.nextTimerId] ∧
        (∀ tid, s.monitoringInterval = some tid →
          tid ∉ (monitorStart (some c) s).1.armedTimers)) ∧
    (∀ s : SchedState, wfSched s →
        (monitorStop s).2 = CallResult.success ∧
        (monitorStop s).1.monitoringInterval = none ∧
        (monitorStop s).1.armedTimers = [] ∧
        (monitorStop (monitorStop s).1).2 = CallResult.success ∧
        (monitorStop (monitorStop s).1).1 = (monitorStop s).1) := by
  constructor
  · intro s c h
    obtain ⟨h1, h2⟩ := h
    refine ⟨⟨?_, ?_⟩, monitorStart_armed s c ⟨h1, h2⟩, ?_⟩
    · rw [monitorStart_armed s c ⟨h1, h2⟩, monitorStart_mi s c]
      rfl
    · intro tid hm
      rw [monitorStart_mi s c] at hm
      simp only [Option.some.injEq] at hm
      rw [monitorStart_next s c]
      omega
    · intro tid hm
      have htid := h2 tid hm
      rw [monitorStart_armed s c ⟨h1, h2⟩]
      simp only [List.mem_singleton]
      omega
  · intro s h
    obtain ⟨h1, h2⟩ := h
    cases hmi : s.monitoringInterval with
    | none =>
        rw [hmi] at h1
        simp at h1
        simp [monitorStop, hmi, h1]
    | some tid =>
        rw [hmi] at h1
        simp at h1
        simp [monitorStop, hmi, h1]

/-- C7 witness: restarting and double-stopping from the concrete running
state with timer 5 armed. -/
theorem start_stop_idempotent_witness :
    (monitorStart (some badCfg) runningSched).1.armedTimers = [6] ∧
    ((5 : Nat) ∉ (monitorStart (some badCfg) runningSched).1.armedTimers) ∧
    (monitorStop runningSched).2 = CallResult.success ∧
    (monitorStop runningSched).1.armedTimers = [] ∧
    (monitorStop (monitorStop runningSched).1).2 = CallResult.success :=
  ⟨(start_stop_idempotent.1 runningSched badCfg
      ⟨rfl, fun tid h => by simp [runningSched] at h ⊢; omega⟩).2.1,
    (start_stop_idempotent.1 runningSched badCfg
      ⟨rfl, fun tid h => by simp [runningSched] at h ⊢; omega⟩).2.2 5 rfl,
    (start_stop_idempotent.2 runningSched
      ⟨rfl, fun tid h => by simp [runningSched] at h ⊢; omega⟩).1,
    (start_stop_idempotent.2 runningSched
      ⟨rfl, fun tid h => by simp [runningSched] at h ⊢; omega⟩).2.2.1,
    (start_stop_idempotent.2 runningSched
      ⟨rfl, fun tid h => by simp [runningSched] at h ⊢; omega⟩).2.2.2.1⟩

/-- C9: a raw node whose port key is null or the empty string normalizes
to a null port and is probed in ICMP mode; conversely a non-null
normalized port can only come from a non-empty raw port value, so only a
non-empty port selects TCP-connect probing. -/
theorem port_empty_probes_icmp :
    (∀ raw : RawNode, (raw.port = none ∨ raw.port = some "") →
        (normalizeNode raw).port = none ∧
        probeModeOf (normalizeNode raw) = ProbeMode.icmp) ∧
    (∀ raw : RawNode, (normalizeNode raw).port ≠ none →
        ∃ p : String, raw.port = some p ∧ p ≠ "") := by
  constructor
  · intro raw h
    rcases h with h | h <;> simp [normalizeNode, probeModeOf, h]
  · intro raw h
    cases hp : raw.port with
    | none => exact absurd (by simp [normalizeNode, hp]) h
    | some p =>
        refine ⟨p, rfl, ?_⟩
        intro he
        subst he
        exact h (by simp [normalizeNode, hp])

/-- C9 witness: a node carrying an explicit empty-string port key is
normalized to a null port and pings. -/
theorem port_empty_probes_icmp_witness :
    (normalizeNode rawEmptyPort).port = none ∧
    probeModeOf (normalizeNode rawEmptyPort) = ProbeMode.icmp :=
  port_empty_probes_icmp.1 rawEmptyPort (Or.inr rfl)

end NetMon
